import Mathlib

/-!
Verification of the gravisim physics core (src/src/main.rs, src/src/body.rs).

Modelling conventions:
* `f32` arithmetic is modelled by exact real arithmetic (`ℝ`); `.sqrt()` and
  `Vec2::length()` become `Real.sqrt`, `Vec2::normalize()` becomes division of
  each component by the length, `Vec2::dot` is the componentwise product sum.
* The live body collection (the Bevy query iterated with `iter_mut` and
  `split_at_mut`) is a `List Body`; the nested index loops
  `for i in 0..n { for j in (i+1)..n { ... } }` become a fold over the list of
  index pairs `pairIndices n`, each iteration writing back the two mutated
  bodies with `List.set` exactly as the source mutates `bodies[i]`/`bodies[j]`.
* Decimal literals (`0.0005`, `0.0001`, `400.0`, `0.5`) are kept as written in
  the source; over `ℝ` they denote the exact corresponding rationals.
-/

namespace Gravisim

noncomputable section

/-- The `Body` component of `src/src/body.rs`, field for field.  `Color` is
modelled as an rgb triple of reals. -/
structure Body where
  past_a_x : ℝ
  past_a_y : ℝ
  past_x : ℝ
  past_y : ℝ
  x : ℝ
  y : ℝ
  a_x : ℝ
  a_y : ℝ
  v_x : ℝ
  v_y : ℝ
  mass : ℝ
  size : ℝ
  density : ℝ
  color : ℝ × ℝ × ℝ

/-- All-zero body, used only as the default value of out-of-range `List.getD`
lookups (the source never indexes out of range). -/
def Body.default : Body :=
  ⟨0, 0, 0, 0, 0, 0, 0, 0, 0, 0, 0, 0, 0, (0, 0, 0)⟩

/-- `Body::new` from `src/src/body.rs`: stores the arguments as given (no
clamping) and derives `mass = (4/3)·π·size³·density` once; the remaining fields
start at zero and the color is white. -/
def Body.new (x y v_x v_y density size : ℝ) : Body :=
  { past_a_x := 0
    past_a_y := 0
    past_x := 0
    past_y := 0
    x := x
    y := y
    a_x := 0
    a_y := 0
    v_x := v_x
    v_y := v_y
    mass := (4.0 / 3.0) * Real.pi * size ^ 3 * density
    size := size
    density := density
    color := (1.0, 1.0, 1.0) }

/-- `GRAVITY_CONST` from `src/src/main.rs` line 8. -/
def GRAVITY_CONST : ℝ := 0.0005

/-- The step multiplier of `update_bodies`: `time.delta_seconds() * 400.0`. -/
def timeMult (dt : ℝ) : ℝ := dt * 400.0

/-- The per-body state transition of `update_bodies` (`src/src/main.rs`
lines 77-93): record past position, advance position, advance velocity with the
average of current and (pre-scaled) past acceleration, store `past_a = a·mult`,
reset the acceleration accumulator. -/
def updateBody (mult : ℝ) (b : Body) : Body :=
  { b with
    past_x := b.x
    past_y := b.y
    x := b.x + ((b.v_x * mult) + (0.5 * b.a_x * mult ^ 2))
    y := b.y + ((b.v_y * mult) + (0.5 * b.a_y * mult ^ 2))
    v_x := b.v_x + (b.a_x + b.past_a_x) * mult * 0.5
    v_y := b.v_y + (b.a_y + b.past_a_y) * mult * 0.5
    past_a_x := b.a_x * mult
    past_a_y := b.a_y * mult
    a_x := 0.0
    a_y := 0.0 }

/-- `update_bodies`: the loop applies `updateBody` to every body
independently. -/
def updateBodies (mult : ℝ) (bodies : List Body) : List Body :=
  bodies.map (updateBody mult)

end

/-- The index pairs visited by the nested loops
`for i in 0..n { for j in (i+1)..n { ... } }` shared by
`compute_gravity_system` and `elastic_collision_system`, in visiting order. -/
def pairIndices (n : Nat) : List (Nat × Nat) :=
  (List.range n).flatMap fun i => (List.range' (i + 1) (n - (i + 1))).map fun j => (i, j)

theorem pairIndices_two : pairIndices 2 = [(0, 1)] := by decide

noncomputable section

/-- The clamped distance of `compute_gravity_system` (`src/src/main.rs`
lines 107-112): the Euclidean distance between the two bodies, raised to
`min_distance = 0.0001` when below it.  The clamp happens before any
division. -/
def gravityDist (b1 b2 : Body) : ℝ :=
  if Real.sqrt ((b2.x - b1.x) ^ 2 + (b2.y - b1.y) ^ 2) < 0.0001 then 0.0001
  else Real.sqrt ((b2.x - b1.x) ^ 2 + (b2.y - b1.y) ^ 2)

/-- The x component of `unit_direction = direction / distance`. -/
def gravityUnitX (b1 b2 : Body) : ℝ := (b2.x - b1.x) / gravityDist b1 b2

/-- The y component of `unit_direction = direction / distance`. -/
def gravityUnitY (b1 b2 : Body) : ℝ := (b2.y - b1.y) / gravityDist b1 b2

/-- `force_scalar = GRAVITY_CONST * body1.mass * body2.mass / distance²`. -/
def gravityForce (b1 b2 : Body) : ℝ :=
  GRAVITY_CONST * b1.mass * b2.mass / gravityDist b1 b2 ^ 2

/-- One iteration of the pair loop of `compute_gravity_system`
(`src/src/main.rs` lines 107-124): accumulate `unit · (force / m1)` into
body1's acceleration and subtract `unit · (force / m2)` from body2's, reusing
the same unit vector and force magnitude for both. -/
def gravityPair (b1 b2 : Body) : Body × Body :=
  ({ b1 with
      a_x := b1.a_x + gravityUnitX b1 b2 * (gravityForce b1 b2 / b1.mass)
      a_y := b1.a_y + gravityUnitY b1 b2 * (gravityForce b1 b2 / b1.mass) },
   { b2 with
      a_x := b2.a_x - gravityUnitX b1 b2 * (gravityForce b1 b2 / b2.mass)
      a_y := b2.a_y - gravityUnitY b1 b2 * (gravityForce b1 b2 / b2.mass) })

/-- One iteration of `compute_gravity_system`, as a transformation of the body
list: read `bodies[i]` and `bodies[j]`, apply `gravityPair`, write both back
(the source mutates the two disjoint references obtained by
`split_at_mut`). -/
def gravityStep (bodies : List Body) (p : Nat × Nat) : List Body :=
  let c := gravityPair (bodies.getD p.1 Body.default) (bodies.getD p.2 Body.default)
  (bodies.set p.1 c.1).set p.2 c.2

/-- `compute_gravity_system` (`src/src/main.rs` lines 96-127): fold the pair
iteration over every index pair of the nested loops. -/
def computeGravity (bodies : List Body) : List Body :=
  (pairIndices bodies.length).foldl gravityStep bodies

/-- The collision distance `distance = distance_vec.length()` of
`elastic_collision_system` (`src/src/main.rs` lines 285-286).  Unlike the
gravity solver there is no clamp. -/
def collideDist (b1 b2 : Body) : ℝ :=
  Real.sqrt ((b2.x - b1.x) ^ 2 + (b2.y - b1.y) ^ 2)

/-- The x component of `normal = distance_vec.normalize()`: the difference
vector divided by its length (no fallback when the length is zero). -/
def collideNormalX (b1 b2 : Body) : ℝ := (b2.x - b1.x) / collideDist b1 b2

/-- The y component of `normal = distance_vec.normalize()`. -/
def collideNormalY (b1 b2 : Body) : ℝ := (b2.y - b1.y) / collideDist b1 b2

/-- `impulse_magnitude = 2 * relative_velocity.dot(normal) / (m1 + m2)` with
`relative_velocity = v1 - v2`. -/
def collideImpulse (b1 b2 : Body) : ℝ :=
  2.0 * ((b1.v_x - b2.v_x) * collideNormalX b1 b2 + (b1.v_y - b2.v_y) * collideNormalY b1 b2)
    / (b1.mass + b2.mass)

/-- One iteration of the pair loop of `elastic_collision_system`
(`src/src/main.rs` lines 285-308): when the bodies overlap
(`distance < size1 + size2`), apply the impulse along the contact normal to
both velocities and push the bodies apart along the normal by half the overlap
each; otherwise leave both bodies untouched. -/
def collidePair (b1 b2 : Body) : Body × Body :=
  if collideDist b1 b2 < b1.size + b2.size then
    ({ b1 with
        v_x := b1.v_x - collideImpulse b1 b2 * b2.mass * collideNormalX b1 b2
        v_y := b1.v_y - collideImpulse b1 b2 * b2.mass * collideNormalY b1 b2
        x := b1.x - collideNormalX b1 b2 * ((b1.size + b2.size) - collideDist b1 b2) * 0.5
        y := b1.y - collideNormalY b1 b2 * ((b1.size + b2.size) - collideDist b1 b2) * 0.5 },
     { b2 with
        v_x := b2.v_x + collideImpulse b1 b2 * b1.mass * collideNormalX b1 b2
        v_y := b2.v_y + collideImpulse b1 b2 * b1.mass * collideNormalY b1 b2
        x := b2.x + collideNormalX b1 b2 * ((b1.size + b2.size) - collideDist b1 b2) * 0.5
        y := b2.y + collideNormalY b1 b2 * ((b1.size + b2.size) - collideDist b1 b2) * 0.5 })
  else (b1, b2)

/-- One iteration of `elastic_collision_system` as a transformation of the
body list, analogous to `gravityStep`. -/
def collideStep (bodies : List Body) (p : Nat × Nat) : List Body :=
  let c := collidePair (bodies.getD p.1 Body.default) (bodies.getD p.2 Body.default)
  (bodies.set p.1 c.1).set p.2 c.2

/-- `elastic_collision_system` (`src/src/main.rs` lines 267-311): an early
return when the `ElasticCollisionsEnabled` resource is false, otherwise the
pair loop over every index pair. -/
def elasticCollisions (enabled : Bool) (bodies : List Body) : List Body :=
  if enabled then (pairIndices bodies.length).foldl collideStep bodies else bodies

/-- One external tick in the order the specification prescribes for the three
core passes (Motion Integrator, then Gravity Solver, then Collision Resolver);
`dt` is the elapsed seconds of the frame.  See the scheduling model below for
what `main` actually registers. -/
def tick (dt : ℝ) (collisionsEnabled : Bool) (bodies : List Body) : List Body :=
  elasticCollisions collisionsEnabled (computeGravity (updateBodies (timeMult dt) bodies))

end

/-- The three core physics systems of `main`. -/
inductive CoreSystem where
  | update_bodies
  | compute_gravity_system
  | elastic_collision_system
deriving DecidableEq

/-- The core systems as they appear in the `add_systems(Update, (...))` tuple
of `main` (`src/src/main.rs` lines 17-28). -/
def registeredCoreSystems : List CoreSystem :=
  [CoreSystem.update_bodies, CoreSystem.compute_gravity_system,
   CoreSystem.elastic_collision_system]

/-- The ordering constraints `main` places between the core systems.  The
tuple passed to `add_systems` carries no `.chain()` and no
`.before(...)`/`.after(...)`, and under Bevy semantics an unchained tuple
imposes no execution-order constraint between its members, so this list is
empty. -/
def coreOrderingConstraints : List (CoreSystem × CoreSystem) := []

/-- An execution order of the three core systems within one `Update` run of
the schedule is permitted when it runs each registered system exactly once (a
permutation of the registration) and respects every registered ordering
constraint. -/
def schedulePermits (order : List CoreSystem) : Prop :=
  registeredCoreSystems.Perm order ∧
    ∀ c ∈ coreOrderingConstraints, order.indexOf c.1 < order.indexOf c.2

/-! ### List access helpers -/

theorem getD_set (l : List Body) (j : Nat) (v : Body) (i : Nat) :
    (l.set j v).getD i Body.default
      = if j = i ∧ j < l.length then v else l.getD i Body.default := by
  simp only [List.getD_eq_getElem?_getD, List.getElem?_set]
  by_cases h1 : j = i
  · subst h1
    by_cases h2 : j < l.length
    · simp [h2]
    ·
      rw [if_pos rfl, if_neg h2, if_neg (by exact fun h => h2 h.2)]
      rw [List.getElem?_eq_none (Nat.le_of_not_lt h2)]
  · simp [h1]

theorem getD_default_of_le (l : List Body) (i : Nat) (h : l.length ≤ i) :
    l.getD i Body.default = Body.default := by
  rw [List.getD_eq_getElem?_getD, List.getElem?_eq_none h]
  rfl

theorem updateBodies_getD (mult : ℝ) (bodies : List Body) (i : Nat)
    (h : i < bodies.length) :
    (updateBodies mult bodies).getD i Body.default
      = updateBody mult (bodies.getD i Body.default) := by
  simp only [updateBodies, List.getD_eq_getElem?_getD, List.getElem?_map,
    List.getElem?_eq_getElem h]
  rfl

theorem length_updateBodies (mult : ℝ) (bodies : List Body) :
    (updateBodies mult bodies).length = bodies.length := by
  simp [updateBodies]

/-! ### Frame lemmas for the gravity pass -/

/-- The non-acceleration part of a body is unchanged: `SamePhys b c` says that
`c` agrees with `b` on every field except possibly `a_x` and `a_y`. -/
def SamePhys (b c : Body) : Prop :=
  c.past_a_x = b.past_a_x ∧ c.past_a_y = b.past_a_y ∧ c.past_x = b.past_x ∧
    c.past_y = b.past_y ∧ c.x = b.x ∧ c.y = b.y ∧ c.v_x = b.v_x ∧ c.v_y = b.v_y ∧
    c.mass = b.mass ∧ c.size = b.size ∧ c.density = b.density ∧ c.color = b.color

theorem SamePhys.refl (b : Body) : SamePhys b b :=
  ⟨rfl, rfl, rfl, rfl, rfl, rfl,
   rfl, rfl, rfl, rfl, rfl, rfl⟩

theorem SamePhys.trans {a b c : Body} (h1 : SamePhys a b) (h2 : SamePhys b c) :
    SamePhys a c := by
  obtain ⟨p1, p2, p3, p4, p5, p6, p7, p8, p9, p10, p11, p12⟩ := h1
  obtain ⟨q1, q2, q3, q4, q5, q6, q7, q8, q9, q10, q11, q12⟩ := h2
  exact ⟨q1.trans p1, q2.trans p2, q3.trans p3, q4.trans p4, q5.trans p5,
    q6.trans p6, q7.trans p7, q8.trans p8, q9.trans p9, q10.trans p10,
    q11.trans p11, q12.trans p12⟩

theorem samePhys_gravityPair_fst (b1 b2 : Body) : SamePhys b1 (gravityPair b1 b2).1 :=
  SamePhys.refl b1

theorem samePhys_gravityPair_snd (b1 b2 : Body) : SamePhys b2 (gravityPair b1 b2).2 :=
  SamePhys.refl b2

theorem length_gravityStep (bodies : List Body) (p : Nat × Nat) :
    (gravityStep bodies p).length = bodies.length := by
  simp [gravityStep]

theorem gravityStep_samePhys (bodies : List Body) (p : Nat × Nat) (i : Nat) :
    SamePhys (bodies.getD i Body.default) ((gravityStep bodies p).getD i Body.default) := by
  unfold gravityStep
  rw [getD_set, List.length_set, getD_set]
  by_cases h2 : p.2 = i ∧ p.2 < bodies.length
  · rw [if_pos h2, ← h2.1]
    exact samePhys_gravityPair_snd _ _
  · rw [if_neg h2]
    by_cases h1 : p.1 = i ∧ p.1 < bodies.length
    · rw [if_pos h1, ← h1.1]
      exact samePhys_gravityPair_fst _ _
    · rw [if_neg h1]
      exact SamePhys.refl _

theorem foldl_gravityStep_samePhys (ps : List (Nat × Nat)) (bodies : List Body) (i : Nat) :
    SamePhys (bodies.getD i Body.default)
      ((ps.foldl gravityStep bodies).getD i Body.default) := by
  induction ps generalizing bodies with
  | nil => exact SamePhys.refl _
  | cons p ps ih =>
      rw [List.foldl_cons]
      exact (gravityStep_samePhys bodies p i).trans (ih (gravityStep bodies p))

theorem foldl_gravityStep_length (ps : List (Nat × Nat)) (bodies : List Body) :
    (ps.foldl gravityStep bodies).length = bodies.length := by
  induction ps generalizing bodies with
  | nil => rfl
  | cons p ps ih =>
      rw [List.foldl_cons, ih (gravityStep bodies p), length_gravityStep]

theorem length_computeGravity (bodies : List Body) :
    (computeGravity bodies).length = bodies.length :=
  foldl_gravityStep_length _ _

theorem computeGravity_samePhys (bodies : List Body) (i : Nat) :
    SamePhys (bodies.getD i Body.default)
      ((computeGravity bodies).getD i Body.default) :=
  foldl_gravityStep_samePhys _ _ _

/-! ### The pair enumeration -/

theorem mem_pairIndices {n : Nat} {p : Nat × Nat} :
    p ∈ pairIndices n ↔ p.1 < p.2 ∧ p.2 < n := by
  obtain ⟨a, b⟩ := p
  simp only [pairIndices, List.mem_flatMap, List.mem_map, List.mem_range,
    List.mem_range'_1, Prod.mk.injEq]
  constructor
  · rintro ⟨i, hi, j, ⟨hj1, hj2⟩, he1, he2⟩
    subst he1; subst he2
    exact ⟨hj1, by omega⟩
  · rintro ⟨h1, h2⟩
    exact ⟨a, by omega, b, ⟨by omega, by omega⟩, rfl, rfl⟩

theorem nodup_pairIndices (n : Nat) : (pairIndices n).Nodup := by
  unfold pairIndices
  rw [List.nodup_flatMap]
  constructor
  · intro i _
    exact (List.nodup_range' _ _ _).map fun a b h => by simpa using h
  · refine (List.pairwise_lt_range n).imp ?_
    intro a b hab x hxa hxb
    obtain ⟨ja, _, hja⟩ := List.mem_map.mp hxa
    obtain ⟨jb, _, hjb⟩ := List.mem_map.mp hxb
    rw [← hja] at hjb
    exact absurd (congrArg Prod.fst hjb) (Ne.symm (Nat.ne_of_lt hab))

theorem length_pairIndices (n : Nat) : (pairIndices n).length = n * (n - 1) / 2 := by
  unfold pairIndices
  rw [List.length_flatMap]
  simp only [Function.comp_def, List.length_map, List.length_range']
  have hbridge : ∀ (f : Nat → Nat) (m : Nat),
      (List.map f (List.range m)).sum = Finset.sum (Finset.range m) f := by
    intro f m
    induction m with
    | zero => simp
    | succ k ih =>
        rw [List.range_succ, List.map_append, List.sum_append, Finset.sum_range_succ, ih]
        simp
  rw [hbridge]
  have hreflect : Finset.sum (Finset.range n) (fun i => n - (i + 1))
      = Finset.sum (Finset.range n) (fun i => i) := by
    have h := Finset.sum_range_reflect (fun i => i) n
    calc Finset.sum (Finset.range n) (fun i => n - (i + 1))
        = Finset.sum (Finset.range n) (fun i => n - 1 - i) :=
          Finset.sum_congr rfl fun i _ => by omega
      _ = Finset.sum (Finset.range n) (fun i => i) := h
  rw [hreflect, Finset.sum_range_id]

/-! ### Claim theorems -/

/-- C1: one Motion Integrator step with step multiplier `mult` performs, for
every body, exactly: record the past position, `pos += v·mult + 0.5·a·mult²`,
then `v += (a + past_a)·mult·0.5` (the `a` here unscaled), then
`past_a := a·mult` (stored pre-scaled by `mult`), then `a := 0`; every other
field is untouched. -/
theorem integrator_step_exact (mult : ℝ) (bodies : List Body) (i : Nat)
    (h : i < bodies.length) (b c : Body)
    (hb : b = bodies.getD i Body.default)
    (hc : c = (updateBodies mult bodies).getD i Body.default) :
    c.past_x = b.x ∧ c.past_y = b.y ∧
    c.x = b.x + ((b.v_x * mult) + (0.5 * b.a_x * mult ^ 2)) ∧
    c.y = b.y + ((b.v_y * mult) + (0.5 * b.a_y * mult ^ 2)) ∧
    c.v_x = b.v_x + (b.a_x + b.past_a_x) * mult * 0.5 ∧
    c.v_y = b.v_y + (b.a_y + b.past_a_y) * mult * 0.5 ∧
    c.past_a_x = b.a_x * mult ∧ c.past_a_y = b.a_y * mult ∧
    c.a_x = 0 ∧ c.a_y = 0 ∧
    c.mass = b.mass ∧ c.size = b.size ∧ c.density = b.density ∧ c.color = b.color := by
  subst hb
  subst hc
  rw [updateBodies_getD mult bodies i h]
  refine ⟨rfl, rfl, rfl, rfl, rfl, rfl, rfl, rfl, ?_, ?_, rfl, rfl, rfl, rfl⟩ <;>
    norm_num [updateBody]

/-- A concrete body with pairwise distinct field values, for the integrator
witness. -/
def wIntBody : Body := ⟨1, 2, 3, 4, 5, 6, 7, 8, 9, 10, 11, 12, 13, (1, 0, 0)⟩

theorem integrator_step_exact_witness :
    (0 : Nat) < [wIntBody].length ∧
    (((updateBodies 2 [wIntBody]).getD 0 Body.default).past_x = wIntBody.x ∧
     ((updateBodies 2 [wIntBody]).getD 0 Body.default).past_y = wIntBody.y ∧
     ((updateBodies 2 [wIntBody]).getD 0 Body.default).x
        = wIntBody.x + ((wIntBody.v_x * 2) + (0.5 * wIntBody.a_x * 2 ^ 2)) ∧
     ((updateBodies 2 [wIntBody]).getD 0 Body.default).y
        = wIntBody.y + ((wIntBody.v_y * 2) + (0.5 * wIntBody.a_y * 2 ^ 2)) ∧
     ((updateBodies 2 [wIntBody]).getD 0 Body.default).v_x
        = wIntBody.v_x + (wIntBody.a_x + wIntBody.past_a_x) * 2 * 0.5 ∧
     ((updateBodies 2 [wIntBody]).getD 0 Body.default).v_y
        = wIntBody.v_y + (wIntBody.a_y + wIntBody.past_a_y) * 2 * 0.5 ∧
     ((updateBodies 2 [wIntBody]).getD 0 Body.default).past_a_x = wIntBody.a_x * 2 ∧
     ((updateBodies 2 [wIntBody]).getD 0 Body.default).past_a_y = wIntBody.a_y * 2 ∧
     ((updateBodies 2 [wIntBody]).getD 0 Body.default).a_x = 0 ∧
     ((updateBodies 2 [wIntBody]).getD 0 Body.default).a_y = 0 ∧
     ((updateBodies 2 [wIntBody]).getD 0 Body.default).mass = wIntBody.mass ∧
     ((updateBodies 2 [wIntBody]).getD 0 Body.default).size = wIntBody.size ∧
     ((updateBodies 2 [wIntBody]).getD 0 Body.default).density = wIntBody.density ∧
     ((updateBodies 2 [wIntBody]).getD 0 Body.default).color = wIntBody.color) :=
  ⟨by simp,
   integrator_step_exact 2 [wIntBody] 0 (by simp) wIntBody
     ((updateBodies 2 [wIntBody]).getD 0 Body.default) rfl rfl⟩

/-- C2: for every pair of bodies with nonzero masses, the acceleration
contribution the gravity pair iteration adds to body1 times `m1` is
`unit · force`, the contribution added to body2 times `m2` is the exact
negation `-(unit · force)` of the same shared unit vector and force magnitude,
and hence `a1·m1 = -(a2·m2)` componentwise (Newton's third law). -/
theorem gravity_third_law (b1 b2 : Body) (h1 : b1.mass ≠ 0) (h2 : b2.mass ≠ 0) :
    ((gravityPair b1 b2).1.a_x - b1.a_x) * b1.mass
        = gravityUnitX b1 b2 * gravityForce b1 b2 ∧
    ((gravityPair b1 b2).1.a_y - b1.a_y) * b1.mass
        = gravityUnitY b1 b2 * gravityForce b1 b2 ∧
    ((gravityPair b1 b2).2.a_x - b2.a_x) * b2.mass
        = -(gravityUnitX b1 b2 * gravityForce b1 b2) ∧
    ((gravityPair b1 b2).2.a_y - b2.a_y) * b2.mass
        = -(gravityUnitY b1 b2 * gravityForce b1 b2) ∧
    ((gravityPair b1 b2).1.a_x - b1.a_x) * b1.mass
        = -(((gravityPair b1 b2).2.a_x - b2.a_x) * b2.mass) ∧
    ((gravityPair b1 b2).1.a_y - b1.a_y) * b1.mass
        = -(((gravityPair b1 b2).2.a_y - b2.a_y) * b2.mass) := by
  have e1x : (gravityPair b1 b2).1.a_x - b1.a_x
      = gravityUnitX b1 b2 * (gravityForce b1 b2 / b1.mass) := by
    simp only [gravityPair]; ring
  have e1y : (gravityPair b1 b2).1.a_y - b1.a_y
      = gravityUnitY b1 b2 * (gravityForce b1 b2 / b1.mass) := by
    simp only [gravityPair]; ring
  have e2x : (gravityPair b1 b2).2.a_x - b2.a_x
      = -(gravityUnitX b1 b2 * (gravityForce b1 b2 / b2.mass)) := by
    simp only [gravityPair]; ring
  have e2y : (gravityPair b1 b2).2.a_y - b2.a_y
      = -(gravityUnitY b1 b2 * (gravityForce b1 b2 / b2.mass)) := by
    simp only [gravityPair]; ring
  have c1x : ((gravityPair b1 b2).1.a_x - b1.a_x) * b1.mass
      = gravityUnitX b1 b2 * gravityForce b1 b2 := by
    rw [e1x, mul_assoc, div_mul_cancel₀ _ h1]
  have c1y : ((gravityPair b1 b2).1.a_y - b1.a_y) * b1.mass
      = gravityUnitY b1 b2 * gravityForce b1 b2 := by
    rw [e1y, mul_assoc, div_mul_cancel₀ _ h1]
  have c2x : ((gravityPair b1 b2).2.a_x - b2.a_x) * b2.mass
      = -(gravityUnitX b1 b2 * gravityForce b1 b2) := by
    rw [e2x, neg_mul, mul_assoc, div_mul_cancel₀ _ h2]
  have c2y : ((gravityPair b1 b2).2.a_y - b2.a_y) * b2.mass
      = -(gravityUnitY b1 b2 * gravityForce b1 b2) := by
    rw [e2y, neg_mul, mul_assoc, div_mul_cancel₀ _ h2]
  exact ⟨c1x, c1y, c2x, c2y, by rw [c1x, c2x, neg_neg], by rw [c1y, c2y, neg_neg]⟩

/-- Concrete body of mass 2 at the origin, for the third-law witness. -/
def gw1 : Body := ⟨0, 0, 0, 0, 0, 0, 0, 0, 0, 0, 2, 1, 1, (1, 1, 1)⟩

/-- Concrete body of mass 5 at (3, 4), for the third-law witness. -/
def gw2 : Body := ⟨0, 0, 0, 0, 3, 4, 0, 0, 0, 0, 5, 1, 1, (1, 1, 1)⟩

theorem gravity_third_law_witness :
    gw1.mass ≠ 0 ∧ gw2.mass ≠ 0 ∧
    (((gravityPair gw1 gw2).1.a_x - gw1.a_x) * gw1.mass
        = gravityUnitX gw1 gw2 * gravityForce gw1 gw2 ∧
     ((gravityPair gw1 gw2).1.a_y - gw1.a_y) * gw1.mass
        = gravityUnitY gw1 gw2 * gravityForce gw1 gw2 ∧
     ((gravityPair gw1 gw2).2.a_x - gw2.a_x) * gw2.mass
        = -(gravityUnitX gw1 gw2 * gravityForce gw1 gw2) ∧
     ((gravityPair gw1 gw2).2.a_y - gw2.a_y) * gw2.mass
        = -(gravityUnitY gw1 gw2 * gravityForce gw1 gw2) ∧
     ((gravityPair gw1 gw2).1.a_x - gw1.a_x) * gw1.mass
        = -(((gravityPair gw1 gw2).2.a_x - gw2.a_x) * gw2.mass) ∧
     ((gravityPair gw1 gw2).1.a_y - gw1.a_y) * gw1.mass
        = -(((gravityPair gw1 gw2).2.a_y - gw2.a_y) * gw2.mass)) :=
  ⟨by norm_num [gw1], by norm_num [gw2],
   gravity_third_law gw1 gw2 (by norm_num [gw1]) (by norm_num [gw2])⟩

/-- C3: the Gravity Solver folds over `pairIndices n`, which enumerates every
unordered pair of distinct indices below `n` exactly once: it has
`n(n-1)/2` entries, every entry `(i, j)` satisfies `i < j < n` (so no body is
paired with itself), every such pair occurs, and there is no duplicate. -/
theorem gravity_pairs_visited_once (n : Nat) :
    (∀ bodies : List Body,
        computeGravity bodies = (pairIndices bodies.length).foldl gravityStep bodies) ∧
    (pairIndices n).length = n * (n - 1) / 2 ∧
    (∀ p ∈ pairIndices n, p.1 < p.2 ∧ p.2 < n ∧ p.1 ≠ p.2) ∧
    (∀ i j : Nat, i < j → j < n → (i, j) ∈ pairIndices n) ∧
    (pairIndices n).Nodup := by
  refine ⟨fun bodies => rfl, length_pairIndices n, ?_, ?_, nodup_pairIndices n⟩
  · intro p hp
    obtain ⟨hlt, hn⟩ := mem_pairIndices.mp hp
    exact ⟨hlt, hn, Nat.ne_of_lt hlt⟩
  · intro i j hij hj
    exact mem_pairIndices.mpr ⟨hij, hj⟩

theorem gravity_pairs_visited_once_witness :
    ((0 : Nat), (2 : Nat)) ∈ pairIndices 3 ∧ (pairIndices 3).length = 3 * (3 - 1) / 2 :=
  ⟨(gravity_pairs_visited_once 3).2.2.2.1 0 2 (by norm_num) (by norm_num),
   (gravity_pairs_visited_once 3).2.1⟩

/-- C6: the distance used as divisor by the Gravity Solver is clamped below at
0.0001 before any division, hence never zero, and for exactly coincident
bodies it is exactly the floor 0.0001. -/
theorem gravity_distance_floor (b1 b2 : Body) :
    (0.0001 : ℝ) ≤ gravityDist b1 b2 ∧ gravityDist b1 b2 ≠ 0 ∧
    (b1.x = b2.x → b1.y = b2.y → gravityDist b1 b2 = 0.0001) := by
  have hle : (0.0001 : ℝ) ≤ gravityDist b1 b2 := by
    unfold gravityDist
    split
    · exact le_refl _
    · next hlt => exact le_of_not_lt hlt
  refine ⟨hle, ?_, ?_⟩
  · intro h0
    rw [h0] at hle
    norm_num at hle
  · intro hx hy
    unfold gravityDist
    rw [hx, hy, sub_self, sub_self]
    rw [show (0 : ℝ) ^ 2 + 0 ^ 2 = 0 by norm_num, Real.sqrt_zero, if_pos (by norm_num)]

theorem gravity_distance_floor_witness :
    Body.default.x = Body.default.x ∧ Body.default.y = Body.default.y ∧
    gravityDist Body.default Body.default = 0.0001 :=
  ⟨rfl, rfl, (gravity_distance_floor Body.default Body.default).2.2 rfl rfl⟩

/-- C10: a Gravity Solver pass keeps the body count and, for every index,
changes nothing but the acceleration components: position, velocity, past
position, past acceleration, mass, size, density and color all agree with the
input (`SamePhys`). -/
theorem gravity_mutates_only_acceleration (bodies : List Body) :
    (computeGravity bodies).length = bodies.length ∧
    ∀ i : Nat,
      SamePhys (bodies.getD i Body.default) ((computeGravity bodies).getD i Body.default) :=
  ⟨length_computeGravity bodies, fun i => computeGravity_samePhys bodies i⟩

/-- C4: for two overlapping equal-mass bodies with a nonzero center distance,
the pair iteration of the Collision Resolver swaps the normal components of
the two velocities, displaces each body along the contact normal by half of
`(min_distance - distance)` (body1 backwards, body2 forwards), and leaves the
new center distance exactly equal to the sum of the radii. -/
theorem collision_equal_mass_resolution (b1 b2 : Body)
    (hmass : b1.mass = b2.mass) (hmpos : 0 < b1.mass)
    (hdpos : 0 < collideDist b1 b2)
    (hover : collideDist b1 b2 < b1.size + b2.size) :
    ((collidePair b1 b2).1.v_x * collideNormalX b1 b2
        + (collidePair b1 b2).1.v_y * collideNormalY b1 b2
      = b2.v_x * collideNormalX b1 b2 + b2.v_y * collideNormalY b1 b2) ∧
    ((collidePair b1 b2).2.v_x * collideNormalX b1 b2
        + (collidePair b1 b2).2.v_y * collideNormalY b1 b2
      = b1.v_x * collideNormalX b1 b2 + b1.v_y * collideNormalY b1 b2) ∧
    (collidePair b1 b2).1.x
      = b1.x - collideNormalX b1 b2 * ((b1.size + b2.size) - collideDist b1 b2) * 0.5 ∧
    (collidePair b1 b2).1.y
      = b1.y - collideNormalY b1 b2 * ((b1.size + b2.size) - collideDist b1 b2) * 0.5 ∧
    (collidePair b1 b2).2.x
      = b2.x + collideNormalX b1 b2 * ((b1.size + b2.size) - collideDist b1 b2) * 0.5 ∧
    (collidePair b1 b2).2.y
      = b2.y + collideNormalY b1 b2 * ((b1.size + b2.size) - collideDist b1 b2) * 0.5 ∧
    Real.sqrt (((collidePair b1 b2).2.x - (collidePair b1 b2).1.x) ^ 2
        + ((collidePair b1 b2).2.y - (collidePair b1 b2).1.y) ^ 2)
      = b1.size + b2.size := by
  have hd0 : collideDist b1 b2 ≠ 0 := ne_of_gt hdpos
  have hm0 : b1.mass ≠ 0 := ne_of_gt hmpos
  have h2m : b1.mass + b1.mass ≠ 0 := ne_of_gt (by linarith)
  have hfst : (collidePair b1 b2).1 = { b1 with
      v_x := b1.v_x - collideImpulse b1 b2 * b2.mass * collideNormalX b1 b2
      v_y := b1.v_y - collideImpulse b1 b2 * b2.mass * collideNormalY b1 b2
      x := b1.x - collideNormalX b1 b2 * ((b1.size + b2.size) - collideDist b1 b2) * 0.5
      y := b1.y - collideNormalY b1 b2 * ((b1.size + b2.size) - collideDist b1 b2) * 0.5 } := by
    rw [collidePair, if_pos hover]
  have hsnd : (collidePair b1 b2).2 = { b2 with
      v_x := b2.v_x + collideImpulse b1 b2 * b1.mass * collideNormalX b1 b2
      v_y := b2.v_y + collideImpulse b1 b2 * b1.mass * collideNormalY b1 b2
      x := b2.x + collideNormalX b1 b2 * ((b1.size + b2.size) - collideDist b1 b2) * 0.5
      y := b2.y + collideNormalY b1 b2 * ((b1.size + b2.size) - collideDist b1 b2) * 0.5 } := by
    rw [collidePair, if_pos hover]
  have hsq : collideDist b1 b2 ^ 2 = (b2.x - b1.x) ^ 2 + (b2.y - b1.y) ^ 2 :=
    Real.sq_sqrt (by positivity)
  have hunit : collideNormalX b1 b2 ^ 2 + collideNormalY b1 b2 ^ 2 = 1 := by
    unfold collideNormalX collideNormalY
    rw [div_pow, div_pow, div_add_div_same, ← hsq, div_self (pow_ne_zero 2 hd0)]
  have himp2 : collideImpulse b1 b2 * b2.mass
      = (b1.v_x - b2.v_x) * collideNormalX b1 b2
        + (b1.v_y - b2.v_y) * collideNormalY b1 b2 := by
    unfold collideImpulse
    rw [← hmass, div_mul_eq_mul_div, div_eq_iff h2m]
    ring
  have himp1 : collideImpulse b1 b2 * b1.mass
      = (b1.v_x - b2.v_x) * collideNormalX b1 b2
        + (b1.v_y - b2.v_y) * collideNormalY b1 b2 := by
    unfold collideImpulse
    rw [← hmass, div_mul_eq_mul_div, div_eq_iff h2m]
    ring
  have hv1 : (collidePair b1 b2).1.v_x * collideNormalX b1 b2
      + (collidePair b1 b2).1.v_y * collideNormalY b1 b2
      = b2.v_x * collideNormalX b1 b2 + b2.v_y * collideNormalY b1 b2 := by
    rw [hfst]
    show (b1.v_x - collideImpulse b1 b2 * b2.mass * collideNormalX b1 b2)
          * collideNormalX b1 b2
        + (b1.v_y - collideImpulse b1 b2 * b2.mass * collideNormalY b1 b2)
          * collideNormalY b1 b2
      = b2.v_x * collideNormalX b1 b2 + b2.v_y * collideNormalY b1 b2
    calc (b1.v_x - collideImpulse b1 b2 * b2.mass * collideNormalX b1 b2)
          * collideNormalX b1 b2
        + (b1.v_y - collideImpulse b1 b2 * b2.mass * collideNormalY b1 b2)
          * collideNormalY b1 b2
        = (b1.v_x * collideNormalX b1 b2 + b1.v_y * collideNormalY b1 b2)
            - (collideImpulse b1 b2 * b2.mass)
              * (collideNormalX b1 b2 ^ 2 + collideNormalY b1 b2 ^ 2) := by ring
      _ = (b1.v_x * collideNormalX b1 b2 + b1.v_y * collideNormalY b1 b2)
            - ((b1.v_x - b2.v_x) * collideNormalX b1 b2
                + (b1.v_y - b2.v_y) * collideNormalY b1 b2) * 1 := by
          rw [himp2, hunit]
      _ = b2.v_x * collideNormalX b1 b2 + b2.v_y * collideNormalY b1 b2 := by ring
  have hv2 : (collidePair b1 b2).2.v_x * collideNormalX b1 b2
      + (collidePair b1 b2).2.v_y * collideNormalY b1 b2
      = b1.v_x * collideNormalX b1 b2 + b1.v_y * collideNormalY b1 b2 := by
    rw [hsnd]
    show (b2.v_x + collideImpulse b1 b2 * b1.mass * collideNormalX b1 b2)
          * collideNormalX b1 b2
        + (b2.v_y + collideImpulse b1 b2 * b1.mass * collideNormalY b1 b2)
          * collideNormalY b1 b2
      = b1.v_x * collideNormalX b1 b2 + b1.v_y * collideNormalY b1 b2
    calc (b2.v_x + collideImpulse b1 b2 * b1.mass * collideNormalX b1 b2)
          * collideNormalX b1 b2
        + (b2.v_y + collideImpulse b1 b2 * b1.mass * collideNormalY b1 b2)
          * collideNormalY b1 b2
        = (b2.v_x * collideNormalX b1 b2 + b2.v_y * collideNormalY b1 b2)
            + (collideImpulse b1 b2 * b1.mass)
              * (collideNormalX b1 b2 ^ 2 + collideNormalY b1 b2 ^ 2) := by ring
      _ = (b2.v_x * collideNormalX b1 b2 + b2.v_y * collideNormalY b1 b2)
            + ((b1.v_x - b2.v_x) * collideNormalX b1 b2
                + (b1.v_y - b2.v_y) * collideNormalY b1 b2) * 1 := by
          rw [himp1, hunit]
      _ = b1.v_x * collideNormalX b1 b2 + b1.v_y * collideNormalY b1 b2 := by ring
  have hdx : collideNormalX b1 b2 * collideDist b1 b2 = b2.x - b1.x :=
    div_mul_cancel₀ _ hd0
  have hdy : collideNormalY b1 b2 * collideDist b1 b2 = b2.y - b1.y :=
    div_mul_cancel₀ _ hd0
  have hdeltax : (collidePair b1 b2).2.x - (collidePair b1 b2).1.x
      = collideNormalX b1 b2 * (b1.size + b2.size) := by
    rw [hfst, hsnd]
    show (b2.x + collideNormalX b1 b2 * ((b1.size + b2.size) - collideDist b1 b2) * 0.5)
        - (b1.x - collideNormalX b1 b2 * ((b1.size + b2.size) - collideDist b1 b2) * 0.5)
      = collideNormalX b1 b2 * (b1.size + b2.size)
    calc (b2.x + collideNormalX b1 b2 * ((b1.size + b2.size) - collideDist b1 b2) * 0.5)
        - (b1.x - collideNormalX b1 b2 * ((b1.size + b2.size) - collideDist b1 b2) * 0.5)
        = (b2.x - b1.x)
            + collideNormalX b1 b2 * ((b1.size + b2.size) - collideDist b1 b2) := by ring
      _ = collideNormalX b1 b2 * collideDist b1 b2
            + collideNormalX b1 b2 * ((b1.size + b2.size) - collideDist b1 b2) := by
          rw [hdx]
      _ = collideNormalX b1 b2 * (b1.size + b2.size) := by ring
  have hdeltay : (collidePair b1 b2).2.y - (collidePair b1 b2).1.y
      = collideNormalY b1 b2 * (b1.size + b2.size) := by
    rw [hfst, hsnd]
    show (b2.y + collideNormalY b1 b2 * ((b1.size + b2.size) - collideDist b1 b2) * 0.5)
        - (b1.y - collideNormalY b1 b2 * ((b1.size + b2.size) - collideDist b1 b2) * 0.5)
      = collideNormalY b1 b2 * (b1.size + b2.size)
    calc (b2.y + collideNormalY b1 b2 * ((b1.size + b2.size) - collideDist b1 b2) * 0.5)
        - (b1.y - collideNormalY b1 b2 * ((b1.size + b2.size) - collideDist b1 b2) * 0.5)
        = (b2.y - b1.y)
            + collideNormalY b1 b2 * ((b1.size + b2.size) - collideDist b1 b2) := by ring
      _ = collideNormalY b1 b2 * collideDist b1 b2
            + collideNormalY b1 b2 * ((b1.size + b2.size) - collideDist b1 b2) := by
          rw [hdy]
      _ = collideNormalY b1 b2 * (b1.size + b2.size) := by ring
  have hfinal : Real.sqrt (((collidePair b1 b2).2.x - (collidePair b1 b2).1.x) ^ 2
      + ((collidePair b1 b2).2.y - (collidePair b1 b2).1.y) ^ 2) = b1.size + b2.size := by
    rw [hdeltax, hdeltay]
    have hsum : (collideNormalX b1 b2 * (b1.size + b2.size)) ^ 2
        + (collideNormalY b1 b2 * (b1.size + b2.size)) ^ 2
        = (b1.size + b2.size) ^ 2 := by
      calc (collideNormalX b1 b2 * (b1.size + b2.size)) ^ 2
          + (collideNormalY b1 b2 * (b1.size + b2.size)) ^ 2
          = (collideNormalX b1 b2 ^ 2 + collideNormalY b1 b2 ^ 2)
              * (b1.size + b2.size) ^ 2 := by ring
        _ = (b1.size + b2.size) ^ 2 := by rw [hunit, one_mul]
    rw [hsum]
    exact Real.sqrt_sq (le_of_lt (lt_trans hdpos hover))
  refine ⟨hv1, hv2, ?_, ?_, ?_, ?_, hfinal⟩
  · rw [hfst]
  · rw [hfst]
  · rw [hsnd]
  · rw [hsnd]

/-- Concrete overlapping unit-mass body moving right, for the collision
witness: radius 2 at the origin with velocity (1, 0). -/
def wcA : Body := ⟨0, 0, 0, 0, 0, 0, 0, 0, 1, 0, 1, 2, 1, (1, 1, 1)⟩

/-- Concrete overlapping unit-mass body moving left, for the collision
witness: radius 2 at (3, 0) with velocity (-1, 0). -/
def wcB : Body := ⟨0, 0, 0, 0, 3, 0, 0, 0, -1, 0, 1, 2, 1, (1, 1, 1)⟩

theorem collision_equal_mass_resolution_witness :
    wcA.mass = wcB.mass ∧ 0 < wcA.mass ∧ 0 < collideDist wcA wcB ∧
    collideDist wcA wcB < wcA.size + wcB.size ∧
    (((collidePair wcA wcB).1.v_x * collideNormalX wcA wcB
        + (collidePair wcA wcB).1.v_y * collideNormalY wcA wcB
      = wcB.v_x * collideNormalX wcA wcB + wcB.v_y * collideNormalY wcA wcB) ∧
    ((collidePair wcA wcB).2.v_x * collideNormalX wcA wcB
        + (collidePair wcA wcB).2.v_y * collideNormalY wcA wcB
      = wcA.v_x * collideNormalX wcA wcB + wcA.v_y * collideNormalY wcA wcB) ∧
    (collidePair wcA wcB).1.x
      = wcA.x - collideNormalX wcA wcB * ((wcA.size + wcB.size) - collideDist wcA wcB) * 0.5 ∧
    (collidePair wcA wcB).1.y
      = wcA.y - collideNormalY wcA wcB * ((wcA.size + wcB.size) - collideDist wcA wcB) * 0.5 ∧
    (collidePair wcA wcB).2.x
      = wcB.x + collideNormalX wcA wcB * ((wcA.size + wcB.size) - collideDist wcA wcB) * 0.5 ∧
    (collidePair wcA wcB).2.y
      = wcB.y + collideNormalY wcA wcB * ((wcA.size + wcB.size) - collideDist wcA wcB) * 0.5 ∧
    Real.sqrt (((collidePair wcA wcB).2.x - (collidePair wcA wcB).1.x) ^ 2
        + ((collidePair wcA wcB).2.y - (collidePair wcA wcB).1.y) ^ 2)
      = wcA.size + wcB.size) := by
  have hdist : collideDist wcA wcB = 3 := by
    show Real.sqrt ((wcB.x - wcA.x) ^ 2 + (wcB.y - wcA.y) ^ 2) = 3
    rw [show (wcB.x - wcA.x) ^ 2 + (wcB.y - wcA.y) ^ 2 = 3 ^ 2 by norm_num [wcA, wcB]]
    exact Real.sqrt_sq (by norm_num)
  have h1 : wcA.mass = wcB.mass := rfl
  have h2 : (0 : ℝ) < wcA.mass := by norm_num [wcA]
  have h3 : 0 < collideDist wcA wcB := by rw [hdist]; norm_num
  have h4 : collideDist wcA wcB < wcA.size + wcB.size := by
    rw [hdist]
    norm_num [wcA, wcB]
  exact ⟨h1, h2, h3, h4, collision_equal_mass_resolution wcA wcB h1 h2 h3 h4⟩

/-- Degenerate coincident body at (5, 5), for the zero-distance collision
analysis. -/
def dgA : Body := ⟨0, 0, 0, 0, 5, 5, 0, 0, 0, 0, 1, 2, 1, (1, 1, 1)⟩

/-- A second body exactly coincident with `dgA`. -/
def dgB : Body := ⟨0, 0, 0, 0, 5, 5, 0, 0, 0, 0, 1, 2, 1, (1, 1, 1)⟩

/-- C5 fails on the code: for two exactly coincident bodies the overlap branch
of the Collision Resolver is taken (`distance = 0 < size1 + size2`) yet the
code computes `normal = distance_vec.normalize()` with no branch for the
degenerate case, i.e. it divides the zero vector by its zero length.  In this
exact-arithmetic model that division yields the zero vector, which is not a
unit direction (its squared norm is 0, not 1); under IEEE-754 `f32` the same
expression is `0/0 = NaN`, which then propagates into both velocities and
positions.  There is no deterministic fallback direction. -/
theorem collision_zero_distance_no_fallback :
    collideDist dgA dgB = 0 ∧
    collideDist dgA dgB < dgA.size + dgB.size ∧
    collideNormalX dgA dgB = 0 ∧ collideNormalY dgA dgB = 0 ∧
    collideNormalX dgA dgB ^ 2 + collideNormalY dgA dgB ^ 2 ≠ 1 := by
  have hd : collideDist dgA dgB = 0 := by
    show Real.sqrt ((dgB.x - dgA.x) ^ 2 + (dgB.y - dgA.y) ^ 2) = 0
    rw [show (dgB.x - dgA.x) ^ 2 + (dgB.y - dgA.y) ^ 2 = 0 by norm_num [dgA, dgB]]
    exact Real.sqrt_zero
  have hnx : collideNormalX dgA dgB = 0 := by
    unfold collideNormalX
    rw [hd, div_zero]
  have hny : collideNormalY dgA dgB = 0 := by
    unfold collideNormalY
    rw [hd, div_zero]
  refine ⟨hd, ?_, hnx, hny, ?_⟩
  · rw [hd]
    norm_num [dgA, dgB]
  · rw [hnx, hny]
    norm_num

/-- C8 (amended): `Body::new` performs no clamping at all — the stored
`density` and `size` are exactly the arguments — and the mass derived once at
creation as `(4/3)·π·size³·density` is strictly positive whenever both
arguments are strictly positive (in particular for caller-clamped inputs
≥ 1). -/
theorem body_new_mass (x y v_x v_y density size : ℝ) :
    (Body.new x y v_x v_y density size).density = density ∧
    (Body.new x y v_x v_y density size).size = size ∧
    (Body.new x y v_x v_y density size).mass
      = (4.0 / 3.0) * Real.pi * size ^ 3 * density ∧
    (0 < density → 0 < size → 0 < (Body.new x y v_x v_y density size).mass) := by
  refine ⟨rfl, rfl, rfl, ?_⟩
  intro hd hs
  show (0 : ℝ) < (4.0 / 3.0) * Real.pi * size ^ 3 * density
  exact mul_pos (mul_pos (mul_pos (by norm_num) Real.pi_pos) (pow_pos hs 3)) hd

theorem body_new_mass_witness :
    (0 : ℝ) < 1000 ∧ (0 : ℝ) < 50 ∧ 0 < (Body.new 0 0 0 0 1000 50).mass :=
  ⟨by norm_num, by norm_num,
   (body_new_mass 0 0 0 0 1000 50).2.2.2 (by norm_num) (by norm_num)⟩

/-- C8 fails as stated: `Body::new` does not clamp density (or size) to a
minimum of 1.0 — with density 0 the stored density stays 0, below the claimed
floor, and the derived mass is 0, not strictly positive. -/
theorem body_new_no_clamp_counterexample :
    (Body.new 0 0 0 0 0 5).density = 0 ∧
    ¬(1 ≤ (Body.new 0 0 0 0 0 5).density) ∧
    (Body.new 0 0 0 0 0 5).mass = 0 ∧
    ¬(0 < (Body.new 0 0 0 0 0 5).mass) := by
  refine ⟨rfl, by norm_num [Body.new], ?_, ?_⟩
  · show (4.0 / 3.0) * Real.pi * (5 : ℝ) ^ 3 * 0 = 0
    rw [mul_zero]
  · show ¬((0 : ℝ) < (4.0 / 3.0) * Real.pi * (5 : ℝ) ^ 3 * 0)
    rw [mul_zero]
    exact lt_irrefl 0

/-- C9 fails on the code: `main` adds the three core systems in one
`add_systems(Update, (...))` tuple with no `.chain()` and no
`.before`/`.after`, so the registration carries no ordering constraint
(`coreOrderingConstraints = []`).  Consequently a schedule that runs the
Gravity Solver before the Motion Integrator is just as permitted as the
claimed Integrator → Gravity → Collision order: the code does not force the
strict order the claim states. -/
theorem core_schedule_not_forced :
    schedulePermits
      [CoreSystem.compute_gravity_system, CoreSystem.update_bodies,
       CoreSystem.elastic_collision_system] ∧
    schedulePermits registeredCoreSystems := by
  constructor
  · exact ⟨by decide, fun c hc => absurd hc (List.not_mem_nil c)⟩
  · exact ⟨List.Perm.refl _, fun c hc => absurd hc (List.not_mem_nil c)⟩

/-- C7 (amended): with collisions disabled, a tick whose elapsed time is 0
changes no body's position and no body's velocity (the integration terms all
carry a factor of the zero step multiplier, and the gravity pass touches only
the acceleration accumulator).  With collisions enabled this fails — see the
counterexample below. -/
theorem tick_zero_preserves_position_velocity (bodies : List Body) (i : Nat) :
    (tick 0 false bodies).length = bodies.length ∧
    ((tick 0 false bodies).getD i Body.default).x = (bodies.getD i Body.default).x ∧
    ((tick 0 false bodies).getD i Body.default).y = (bodies.getD i Body.default).y ∧
    ((tick 0 false bodies).getD i Body.default).v_x = (bodies.getD i Body.default).v_x ∧
    ((tick 0 false bodies).getD i Body.default).v_y = (bodies.getD i Body.default).v_y := by
  have htick : tick 0 false bodies = computeGravity (updateBodies (timeMult 0) bodies) := by
    unfold tick elasticCollisions
    rfl
  have hupd : ∀ j : Nat,
      ((updateBodies (timeMult 0) bodies).getD j Body.default).x
          = (bodies.getD j Body.default).x ∧
      ((updateBodies (timeMult 0) bodies).getD j Body.default).y
          = (bodies.getD j Body.default).y ∧
      ((updateBodies (timeMult 0) bodies).getD j Body.default).v_x
          = (bodies.getD j Body.default).v_x ∧
      ((updateBodies (timeMult 0) bodies).getD j Body.default).v_y
          = (bodies.getD j Body.default).v_y := by
    intro j
    by_cases hj : j < bodies.length
    · rw [updateBodies_getD _ _ _ hj]
      refine ⟨?_, ?_, ?_, ?_⟩ <;> norm_num [updateBody, timeMult]
    · rw [getD_default_of_le _ _ (by rw [length_updateBodies]; omega),
          getD_default_of_le _ _ (by omega)]
      exact ⟨rfl, rfl, rfl, rfl⟩
  obtain ⟨_, _, _, _, hx, hy, hvx, hvy, _, _, _, _⟩ :=
    computeGravity_samePhys (updateBodies (timeMult 0) bodies) i
  rw [htick]
  refine ⟨?_, ?_, ?_, ?_, ?_⟩
  · rw [length_computeGravity, length_updateBodies]
  · rw [hx, (hupd i).1]
  · rw [hy, (hupd i).2.1]
  · rw [hvx, (hupd i).2.2.1]
  · rw [hvy, (hupd i).2.2.2]

/-- Resting body of radius 2 at the origin, overlapping `cbB`. -/
def cbA : Body := ⟨0, 0, 0, 0, 0, 0, 0, 0, 0, 0, 1, 2, 1, (1, 1, 1)⟩

/-- Resting body of radius 2 at (3, 0), overlapping `cbA`
(center distance 3 < 4 = sum of radii). -/
def cbB : Body := ⟨0, 0, 3, 0, 3, 0, 0, 0, 0, 0, 1, 2, 1, (1, 1, 1)⟩

/-- Evaluation helper: for any pair with centers (0,0) and (3,0) and radii
2 and 2, the collision iteration moves the first body's x to -0.5. -/
theorem collidePair_fst_x_concrete (b1 b2 : Body)
    (hx1 : b1.x = 0) (hy1 : b1.y = 0) (hx2 : b2.x = 3) (hy2 : b2.y = 0)
    (hs1 : b1.size = 2) (hs2 : b2.size = 2) :
    (collidePair b1 b2).1.x = -(0.5) := by
  have hdist : collideDist b1 b2 = 3 := by
    unfold collideDist
    rw [hx1, hy1, hx2, hy2]
    rw [show ((3 : ℝ) - 0) ^ 2 + ((0 : ℝ) - 0) ^ 2 = 3 ^ 2 by norm_num]
    exact Real.sqrt_sq (by norm_num)
  have hcond : collideDist b1 b2 < b1.size + b2.size := by
    rw [hdist, hs1, hs2]
    norm_num
  have hnx : collideNormalX b1 b2 = 1 := by
    unfold collideNormalX
    rw [hdist, hx1, hx2]
    norm_num
  rw [collidePair, if_pos hcond]
  show b1.x - collideNormalX b1 b2 * ((b1.size + b2.size) - collideDist b1 b2) * 0.5 = -(0.5)
  rw [hx1, hnx, hdist, hs1, hs2]
  norm_num

/-- C7 fails as stated ("regardless of whether collisions are enabled"): with
collisions enabled, a tick of dt = 0 still moves overlapping bodies, because
`elastic_collision_system` does not depend on the frame time at all.  Here the
two resting overlapping bodies `cbA`, `cbB` are pushed apart: body 0 moves
from x = 0 to x = -0.5. -/
theorem tick_zero_with_collisions_counterexample :
    ((tick 0 true [cbA, cbB]).getD 0 Body.default).x = -(0.5) ∧
    cbA.x = 0 ∧
    ((tick 0 true [cbA, cbB]).getD 0 Body.default).x ≠ cbA.x := by
  have hupd0 : updateBodies (timeMult 0) [cbA, cbB] = [cbA, cbB] := by
    simp only [updateBodies, List.map_cons, List.map_nil]
    norm_num [updateBody, timeMult, cbA, cbB]
  have htick : tick 0 true [cbA, cbB] = collideStep (computeGravity [cbA, cbB]) (0, 1) := by
    unfold tick
    rw [hupd0]
    unfold elasticCollisions
    rw [if_pos rfl, length_computeGravity,
        show pairIndices (List.length [cbA, cbB]) = [(0, 1)] from pairIndices_two,
        List.foldl_cons, List.foldl_nil]
  have hc1 : (collideStep (computeGravity [cbA, cbB]) (0, 1)).getD 0 Body.default
      = (collidePair ((computeGravity [cbA, cbB]).getD 0 Body.default)
          ((computeGravity [cbA, cbB]).getD 1 Body.default)).1 := by
    unfold collideStep
    rw [getD_set, List.length_set, getD_set]
    rw [if_neg (by simp), if_pos ⟨rfl, by rw [length_computeGravity]; norm_num⟩]
  obtain ⟨_, _, _, _, hx0, hy0, _, _, _, hs0, _, _⟩ := computeGravity_samePhys [cbA, cbB] 0
  obtain ⟨_, _, _, _, hx1, hy1, _, _, _, hs1, _, _⟩ := computeGravity_samePhys [cbA, cbB] 1
  have hval : ((tick 0 true [cbA, cbB]).getD 0 Body.default).x = -(0.5) := by
    rw [htick, hc1]
    refine collidePair_fst_x_concrete _ _ ?_ ?_ ?_ ?_ ?_ ?_
    · rw [hx0]; rfl
    · rw [hy0]; rfl
    · rw [hx1]; rfl
    · rw [hy1]; rfl
    · rw [hs0]; rfl
    · rw [hs1]; rfl
  refine ⟨hval, rfl, ?_⟩
  rw [hval]
  norm_num [cbA]

end Gravisim
